import Mathlib

/-!
Verification of the fitcore finance-service core against its
natural-language specification.

The Python service (FastAPI + SQLAlchemy + RabbitMQ) is shallowly embedded:
the relational store becomes an explicit `DB` record of insertion-ordered
lists, each route/service function becomes a pure Lean function from `DB`
(plus the clock values `datetime.utcnow()` / `date.today()`, passed
explicitly) to a new `DB` together with its return value and the list of
messages it publishes.  Fallible routes return `Except`.
-/

namespace FinanceService

/-- Timestamps (`datetime.utcnow()`): abstract, totally ordered instants. -/
abbrev Timestamp := Nat

/-- Calendar dates (`datetime.date`). -/
structure PyDate where
  year : Nat
  month : Nat
  day : Nat
deriving DecidableEq, Repr

/-- Strict lexicographic order on dates, as `datetime.date` comparison. -/
def dateLtb (a b : PyDate) : Bool :=
  decide (a.year < b.year ∨ (a.year = b.year ∧
    (a.month < b.month ∨ (a.month = b.month ∧ a.day < b.day))))

/-- Non-strict date order. -/
def dateLeb (a b : PyDate) : Bool :=
  dateLtb a b || decide (a = b)

/-- `models.Position`: position catalog row. -/
structure Position where
  id : Nat
  name : String
  description : Option String
  base_salary : Rat
deriving DecidableEq, Repr

/-- `models.ManualExpense`: source row for a manually entered expense. -/
structure ManualExpense where
  id : Nat
  date : PyDate
  category : String
  description : Option String
  value : Rat
  responsible : String
  created_at : Timestamp
deriving DecidableEq, Repr

/-- `models.EmployeePaymentStatus`: one payment-status row per employee. -/
structure EmployeePaymentStatus where
  id : Nat
  employee_id : String
  position_name : Option String
  paid : Bool
  last_payment : Option Timestamp
  created_at : Timestamp
  updated_at : Timestamp
deriving DecidableEq, Repr

/-- `models.PaymentCycleConfig`: singleton payment-cycle configuration. -/
structure PaymentCycleConfig where
  id : Nat
  reset_day : Nat
  last_reset_date : Option PyDate
  created_at : Timestamp
  updated_at : Timestamp
deriving DecidableEq, Repr

/-- `models.Expense`: a row of the unified ledger (`expenses` table). -/
structure Expense where
  id : Nat
  description : String
  amount : Rat
  expense_date : PyDate
  expense_type : String
  reference_id : Option Nat
  created_at : Timestamp
deriving DecidableEq, Repr

/-- The committed database state.  Every table is the list of its rows in
insertion order; the `next_*` counters model the autoincrement primary
keys. -/
structure DB where
  positions : List Position
  manual_expenses : List ManualExpense
  payment_status : List EmployeePaymentStatus
  config : Option PaymentCycleConfig
  expenses : List Expense
  next_manual_id : Nat
  next_status_id : Nat
  next_expense_id : Nat
deriving DecidableEq, Repr

/-- An outbound message handed to `messaging.publish_message`
(best-effort; publication never alters `DB`). -/
inductive OutMessage where
  | employeePaid (id : String) (amount : Rat) (position : Option String)
      (month year : Nat) (paid_at : Timestamp)
  | statusChanged (queue : String) (id : String) (active : Bool)
  | employeeDismissed (id : String) (dismissed_at : Timestamp)
      (position : Option String)
  | expenseRegistered (amount : Rat) (category : String)
      (description : Option String) (date : PyDate) (responsible : String)
  | expenseDeleted (id : Nat) (deleted_at : Timestamp)
deriving DecidableEq, Repr

/-- Errors surfaced by routes (`HTTPException`) or by SQLAlchemy's
`scalar_one_or_none` when several rows match. -/
inductive ApiError where
  | badRequest
  | notFound
  | multipleResultsFound
deriving DecidableEq, Repr

/-- `schemas.ExpenseCreate`. -/
structure ExpenseCreate where
  description : String
  amount : Rat
  expense_date : PyDate
  expense_type : String
  reference_id : Option Nat
deriving DecidableEq, Repr

/-- `ExpenseService.create_expense`: inserts a ledger row and commits
(one transaction of its own). -/
def create_expense (db : DB) (d : ExpenseCreate) (now : Timestamp) :
    DB × Expense :=
  let e : Expense :=
    ⟨db.next_expense_id, d.description, d.amount, d.expense_date,
      d.expense_type, d.reference_id, now⟩
  ({ db with expenses := db.expenses ++ [e],
             next_expense_id := db.next_expense_id + 1 }, e)

/-- The description string built by `create_manual_expense_entry`
(`f"Gasto Manual - {category}"` plus the optional description, which is
appended only when truthy). -/
def manualEntryDescription (m : ManualExpense) : String :=
  "Gasto Manual - " ++ m.category ++
    (match m.description with
     | some d => if d = "" then "" else ": " ++ d
     | none => "")

/-- `ExpenseService.create_manual_expense_entry`: ledger row for a manual
expense (`expense_type = "manual"`, `reference_id = manual_expense.id`). -/
def create_manual_expense_entry (db : DB) (m : ManualExpense)
    (now : Timestamp) : DB × Expense :=
  create_expense db
    ⟨manualEntryDescription m, m.value, m.date, "manual", some m.id⟩ now

/-- `ExpenseService.create_employee_payment_entry`: ledger row for an
employee payment.  NOTE: this service function has no caller anywhere in
the repository (the payment-confirmation route never invokes it). -/
def create_employee_payment_entry (db : DB) (employee_id : String)
    (amount : Rat) (position_name : Option String) (payment_date : PyDate)
    (now : Timestamp) : DB × Expense :=
  let ps := db.payment_status.find? (fun s => s.employee_id == employee_id)
  let desc := "Pagamento Funcionário - " ++ employee_id ++
    (match position_name with
     | some p => if p = "" then "" else " (" ++ p ++ ")"
     | none => "")
  create_expense db
    ⟨desc, amount, payment_date, "employee_payment", ps.map (fun s => s.id)⟩
    now

/-- Python truthiness of the optional integer pagination parameters:
`None` and `0` are falsy. -/
def pyTruthy : Option Int → Bool
  | none => false
  | some n => n != 0

/-- Insert one ledger row into a list already sorted by `expense_date`
descending, before the first row whose date is `≤` its own. -/
def insertByDateDesc (x : Expense) : List Expense → List Expense
  | [] => [x]
  | y :: ys =>
    if dateLeb y.expense_date x.expense_date then x :: y :: ys
    else y :: insertByDateDesc x ys

/-- One deterministic realisation of `ORDER BY expense_date DESC`.  The
query names no secondary sort key, so the engine's order among rows with
equal `expense_date` is unspecified; this model fixes one arbitrary such
order, and only tie-order-independent consequences (the result is a
permutation of the table, its length, equality of identical calls) are
proved from it. -/
def sortByDateDesc : List Expense → List Expense
  | [] => []
  | x :: xs => insertByDateDesc x (sortByDateDesc xs)

/-- `LIMIT`/`OFFSET` as applied by `get_all_expenses`: SQL applies the
offset first, then the limit; each is skipped when its parameter is
falsy (`if limit:` / `if offset:`). -/
def applyPagination (l : List Expense) (limit offs : Option Int) :
    List Expense :=
  let paged := if pyTruthy offs then l.drop (offs.getD 0).toNat else l
  if pyTruthy limit then paged.take (limit.getD 0).toNat else paged

/-- `ExpenseService.get_all_expenses`: the full ledger ordered by
`expense_date DESC`, with optional offset/limit. -/
def get_all_expenses (db : DB) (limit offs : Option Int) : List Expense :=
  applyPagination (sortByDateDesc db.expenses) limit offs

/-- `ExpenseService.delete_expense_by_reference`: deletes the single
ledger row matching `(expense_type, reference_id)` if present; `False`
when absent; `scalar_one_or_none` raises when several rows match. -/
def delete_expense_by_reference (db : DB) (expense_type : String)
    (reference_id : Nat) : Except ApiError (DB × Bool) :=
  match db.expenses.filter
      (fun e => e.expense_type == expense_type &&
                e.reference_id == some reference_id) with
  | [] => .ok (db, false)
  | [e] => .ok ({ db with expenses := db.expenses.erase e }, true)
  | _ => .error .multipleResultsFound

/-- `schemas.ManualExpenseCreate`. -/
structure ManualExpenseCreate where
  date : PyDate
  category : String
  description : Option String
  value : Rat
  responsible : String
deriving DecidableEq, Repr

/-- First transaction of the `POST /expenses/manual` route
(`create_manual_expense`): insert the `ManualExpense` source row and
commit.  In the source this `db.commit()` happens before
`create_manual_expense_entry` runs, so this state is durable on its
own. -/
def create_manual_expense_tx1 (db : DB) (d : ManualExpenseCreate)
    (now : Timestamp) : DB × ManualExpense :=
  let m : ManualExpense :=
    ⟨db.next_manual_id, d.date, d.category, d.description, d.value,
      d.responsible, now⟩
  ({ db with manual_expenses := db.manual_expenses ++ [m],
             next_manual_id := db.next_manual_id + 1 }, m)

/-- `POST /expenses/manual` (`create_manual_expense`), complete run:
first transaction commits the source row, second transaction
(`create_manual_expense_entry` → `create_expense`) commits the ledger
row, then the `expense.registered` event is published. -/
def create_manual_expense (db : DB) (d : ManualExpenseCreate)
    (now : Timestamp) : DB × ManualExpense × Expense × List OutMessage :=
  let p1 := create_manual_expense_tx1 db d now
  let p2 := create_manual_expense_entry p1.1 p1.2 now
  (p2.1, p1.2, p2.2,
    [OutMessage.expenseRegistered p1.2.value p1.2.category p1.2.description
      p1.2.date p1.2.responsible])

/-- `DELETE /expenses/manual/{expense_id}` (`delete_manual_expense`):
404 when no such source row; otherwise first remove the matching ledger
row via `delete_expense_by_reference`, then delete the source row, then
publish the `expense.deleted` event. -/
def delete_manual_expense (db : DB) (expense_id : Nat) (now : Timestamp) :
    Except ApiError (DB × List OutMessage) :=
  match db.manual_expenses.find? (fun m => m.id == expense_id) with
  | none => .error .notFound
  | some m =>
    match delete_expense_by_reference db "manual" expense_id with
    | .error e => .error e
    | .ok (db1, _) =>
      .ok ({ db1 with manual_expenses := db1.manual_expenses.erase m },
           [OutMessage.expenseDeleted expense_id now])

/-- Salary resolution shared by the payment-confirmation route and the
demo initialisation (`payments.py` lines 61-77, `payment_cycle.py` lines
139-154): 0.0 when the employee has no (truthy) position or the position
name is absent from the catalog. -/
def lookup_salary (db : DB) (position_name : Option String) : Rat :=
  match position_name with
  | some pname =>
    if pname = "" then 0
    else
      match db.positions.find? (fun p => p.name == pname) with
      | some pos => pos.base_salary
      | none => 0
  | none => 0

/-- `PATCH /payments/{employee_id}/pay` (`confirm_payment`): 400 on
id mismatch, 404 when no payment status exists; otherwise resolves the
salary from the position catalog, sets `paid = True` and
`last_payment = now`, commits, and publishes the `employee.paid` and two
`status_changed` events.  It never writes to the `expenses` ledger. -/
def confirm_payment (db : DB) (employee_id payload_employee_id : String)
    (now : Timestamp) (nowDate : PyDate) :
    Except ApiError (DB × EmployeePaymentStatus × List OutMessage) :=
  if payload_employee_id ≠ employee_id then .error .badRequest
  else
    match db.payment_status.find? (fun s => s.employee_id == employee_id) with
    | none => .error .notFound
    | some ps =>
      let salary_amount := lookup_salary db ps.position_name
      let ps' := { ps with paid := true, last_payment := some now,
                           updated_at := now }
      let statuses := db.payment_status.map
        (fun s => if s.employee_id == employee_id then ps' else s)
      let db' := { db with payment_status := statuses }
      .ok (db', ps',
        [OutMessage.employeePaid employee_id salary_amount ps'.position_name
            nowDate.month nowDate.year now,
         OutMessage.statusChanged "analytics-employee-status-changed-queue"
            employee_id true,
         OutMessage.statusChanged "user-employee-status-changed-queue"
            employee_id true])

/-- `POST /payments/{employee_id}/dismiss` (`dismiss_employee`): 404 when
absent; otherwise sets `paid = False` (the row is kept), commits, and
publishes two `status_changed` events and `employee.dismissed`. -/
def dismiss_employee (db : DB) (employee_id : String) (now : Timestamp) :
    Except ApiError (DB × List OutMessage) :=
  match db.payment_status.find? (fun s => s.employee_id == employee_id) with
  | none => .error .notFound
  | some ps =>
    let ps' := { ps with paid := false, updated_at := now }
    let statuses := db.payment_status.map
      (fun s => if s.employee_id == employee_id then ps' else s)
    let db' := { db with payment_status := statuses }
    .ok (db',
      [OutMessage.statusChanged "analytics-employee-status-changed-queue"
          employee_id false,
       OutMessage.statusChanged "user-employee-status-changed-queue"
          employee_id false,
       OutMessage.employeeDismissed employee_id now ps.position_name])

/-- The fields of the `employee.registered` payload read by its consumer
(the remaining schema fields are validated but never used). -/
structure EmployeeRegistered where
  id : String
  role : String
deriving DecidableEq, Repr

/-- The fields of the `employee.role_changed` payload read by its
consumer. -/
structure EmployeeRoleChanged where
  id : String
  role : String
deriving DecidableEq, Repr

/-- `consumers.process_employee_registered`: create the payment-status
row (`position_name = role, paid = False, last_payment = None`) only when
none exists for the id; otherwise a logged no-op. -/
def process_employee_registered (db : DB) (ev : EmployeeRegistered)
    (now : Timestamp) : DB :=
  match db.payment_status.find? (fun s => s.employee_id == ev.id) with
  | some _ => db
  | none =>
    let st : EmployeePaymentStatus :=
      ⟨db.next_status_id, ev.id, some ev.role, false, none, now, now⟩
    { db with payment_status := db.payment_status ++ [st],
              next_status_id := db.next_status_id + 1 }

/-- `consumers.process_employee_deleted`: delete the row if present
(absence deletes nothing and is not an error). -/
def process_employee_deleted (db : DB) (id : String) : DB :=
  { db with payment_status :=
      db.payment_status.filter (fun s => s.employee_id != id) }

/-- `consumers.process_employee_role_changed`: update `position_name`
and bump `updated_at` when the row exists; otherwise a logged no-op (the
event is dropped, no error reaches the caller). -/
def process_employee_role_changed (db : DB) (ev : EmployeeRoleChanged)
    (now : Timestamp) : DB :=
  match db.payment_status.find? (fun s => s.employee_id == ev.id) with
  | none => db
  | some ps =>
    let ps' := { ps with position_name := some ev.role, updated_at := now }
    let statuses := db.payment_status.map
      (fun s => if s.employee_id == ev.id then ps' else s)
    { db with payment_status := statuses }

/-- `PaymentCycleService.get_or_create_config`: the singleton config,
auto-created with `reset_day = 10, last_reset_date = None` on first
access. -/
def get_or_create_config (db : DB) (now : Timestamp) :
    PaymentCycleConfig × DB :=
  match db.config with
  | some c => (c, db)
  | none =>
    let c : PaymentCycleConfig := ⟨1, 10, none, now, now⟩
    (c, { db with config := some c })

/-- `PaymentCycleService.should_reset_payments`: reset is due when
`today.day ≥ reset_day` and the last reset is absent or fell in another
(year, month). -/
def should_reset_payments (db : DB) (today : PyDate) (now : Timestamp) :
    Bool × DB :=
  let p := get_or_create_config db now
  match p.1.last_reset_date with
  | none => (decide (p.1.reset_day ≤ today.day), p.2)
  | some d =>
    if d.year ≠ today.year ∨ d.month ≠ today.month then
      (decide (p.1.reset_day ≤ today.day), p.2)
    else (false, p.2)

/-- `PaymentCycleService.reset_all_payment_status`: count the paid rows,
flip every one of them to unpaid (bumping `updated_at`), stamp
`config.last_reset_date = today`, commit, return the count. -/
def reset_all_payment_status (db : DB) (today : PyDate) (now : Timestamp) :
    Nat × DB :=
  let count := (db.payment_status.filter (fun s => s.paid)).length
  let statuses := db.payment_status.map
    (fun s => if s.paid then { s with paid := false, updated_at := now }
              else s)
  let p := get_or_create_config db now
  let c' := { p.1 with last_reset_date := some today, updated_at := now }
  (count, { p.2 with payment_status := statuses, config := some c' })

/-- `PaymentCycleService.check_and_auto_reset`: run the reset when due
and return its count, else return `None` (so a no-op is distinguishable
from a reset that affected 0 employees). -/
def check_and_auto_reset (db : DB) (today : PyDate) (now : Timestamp) :
    Option Nat × DB :=
  let p := should_reset_payments db today now
  if p.1 then
    let q := reset_all_payment_status p.2 today now
    (some q.1, q.2)
  else (none, p.2)

/-- The sample size drawn by the demo initialisation
(`employees_to_pay = max(1, total_employees // 2)`, floor division). -/
def demo_sample_size (total : Nat) : Nat := max 1 (total / 2)

/-- `PaymentCycleService.initialize_demo_payments`: when unpaid
employees exist, mark the sampled ones paid (`last_payment = now`) and
publish an `employee.paid` event per marked employee, resolving each
amount with `lookup_salary`.  `sel` stands for the employee ids returned
by `random.sample(unpaid_employees, employees_to_pay)`: a duplicate-free
selection of currently-unpaid employees of size
`demo_sample_size total`. -/
def init_demo_payments (db : DB) (sel : List String) (now : Timestamp)
    (nowDate : PyDate) : Nat × DB × List OutMessage :=
  let unpaid := db.payment_status.filter (fun s => !s.paid)
  if unpaid.isEmpty then (0, db, [])
  else
    let touched := db.payment_status.filter
      (fun s => sel.contains s.employee_id && !s.paid)
    let statuses := db.payment_status.map
      (fun s =>
        if sel.contains s.employee_id && !s.paid then
          { s with paid := true, last_payment := some now, updated_at := now }
        else s)
    (touched.length,
     { db with payment_status := statuses },
     touched.map (fun s =>
       OutMessage.employeePaid s.employee_id (lookup_salary db s.position_name)
         s.position_name nowDate.month nowDate.year now))

theorem insertByDateDesc_perm (x : Expense) (l : List Expense) :
    (insertByDateDesc x l).Perm (x :: l) := by
  induction l with
  | nil => simp [insertByDateDesc]
  | cons y ys ih =>
    by_cases hc : dateLeb y.expense_date x.expense_date = true
    · simp [insertByDateDesc, hc]
    · simp only [insertByDateDesc, hc, if_neg, Bool.not_eq_true]
      exact (ih.cons y).trans (List.Perm.swap x y ys)

theorem sortByDateDesc_perm (l : List Expense) :
    (sortByDateDesc l).Perm l := by
  induction l with
  | nil => simp [sortByDateDesc]
  | cons x xs ih =>
    exact (insertByDateDesc_perm x (sortByDateDesc xs)).trans (ih.cons x)

/-- C10 — the pagination parameters of `get_all_expenses` are ignored
whenever they are falsy: `limit = 0` behaves as no limit (all entries
are returned, not zero of them) and `offset = 0` behaves as no offset. -/
theorem falsy_pagination_ignored (db : DB) (limit offs : Option Int) :
    get_all_expenses db (some 0) offs = get_all_expenses db none offs
  ∧ get_all_expenses db limit (some 0) = get_all_expenses db limit none
  ∧ (get_all_expenses db (some 0) (some 0)).Perm db.expenses
  ∧ (get_all_expenses db (some 0) (some 0)).length = db.expenses.length := by
  have hfalsy : pyTruthy (some 0) = false := by
    simp [pyTruthy]
  have hall : get_all_expenses db (some 0) (some 0) = sortByDateDesc db.expenses := by
    simp [get_all_expenses, applyPagination, hfalsy, pyTruthy]
  refine ⟨?_, ?_, ?_, ?_⟩
  · simp [get_all_expenses, applyPagination, hfalsy, pyTruthy]
  · simp [get_all_expenses, applyPagination, hfalsy, pyTruthy]
  · rw [hall]; exact sortByDateDesc_perm db.expenses
  · rw [hall]; exact (sortByDateDesc_perm db.expenses).length_eq

/-! ### Ledger reconciliation for manual expenses (C2, C4) -/

/-- Number of ledger rows with `expense_type = "manual"` pointing at the
manual expense with id `i`. -/
def countManualFor (db : DB) (i : Nat) : Nat :=
  (db.expenses.filter
    (fun e => e.expense_type == "manual" && e.reference_id == some i)).length

/-- An empty store (all tables empty, counters at their initial value). -/
def emptyDB : DB := ⟨[], [], [], none, [], 1, 1, 1⟩

/-- A concrete manual-expense request used by counterexamples and
witnesses. -/
def sampleCreate : ManualExpenseCreate :=
  ⟨⟨2025, 8, 1⟩, "EQUIPMENT", none, 100, "Ana"⟩

/-- C2 counterexample — `create_manual_expense` is NOT a single
transaction: the first `db.commit()` durably stores the source
manual-expense row while its ledger entry does not exist yet, and the
final state differs from that committed intermediate state.  A failure
in the ledger step therefore leaves the source row committed on its own,
contradicting "if any step fails, neither row is committed". -/
theorem create_manual_expense_not_atomic :
    (create_manual_expense_tx1 emptyDB sampleCreate 0).2
      ∈ (create_manual_expense_tx1 emptyDB sampleCreate 0).1.manual_expenses
  ∧ countManualFor (create_manual_expense_tx1 emptyDB sampleCreate 0).1
      (create_manual_expense_tx1 emptyDB sampleCreate 0).2.id = 0
  ∧ (create_manual_expense emptyDB sampleCreate 0).1
      ≠ (create_manual_expense_tx1 emptyDB sampleCreate 0).1 := by
  decide

/-- C2 amended — `create_manual_expense` runs as two successive
transactions, not one: the first commit stores the source row and leaves
the ledger untouched; the second commit appends exactly one ledger row
with `expense_type = "manual"` and `reference_id = the new expense's
id`.  When both steps succeed the pair exists; nothing reverts the first
commit if the second step fails. -/
theorem create_manual_expense_two_transactions (db : DB)
    (d : ManualExpenseCreate) (now : Timestamp) :
    (create_manual_expense_tx1 db d now).2
      ∈ (create_manual_expense_tx1 db d now).1.manual_expenses
  ∧ (create_manual_expense_tx1 db d now).1.expenses = db.expenses
  ∧ (create_manual_expense db d now).2.1 = (create_manual_expense_tx1 db d now).2
  ∧ (create_manual_expense db d now).1.manual_expenses
      = (create_manual_expense_tx1 db d now).1.manual_expenses
  ∧ (create_manual_expense db d now).1.expenses
      = (create_manual_expense_tx1 db d now).1.expenses
          ++ [(create_manual_expense db d now).2.2.1]
  ∧ (create_manual_expense db d now).2.2.1.expense_type = "manual"
  ∧ (create_manual_expense db d now).2.2.1.reference_id
      = some (create_manual_expense_tx1 db d now).2.id
  ∧ countManualFor (create_manual_expense db d now).1
        (create_manual_expense_tx1 db d now).2.id
      = countManualFor (create_manual_expense_tx1 db d now).1
          (create_manual_expense_tx1 db d now).2.id + 1 := by
  refine ⟨?_, rfl, rfl, rfl, rfl, rfl, rfl, ?_⟩
  · simp [create_manual_expense_tx1]
  · simp [create_manual_expense, create_manual_expense_tx1,
      create_manual_expense_entry, create_expense, countManualFor,
      List.filter_append]

/-- C4 — the manual-expense/ledger bijection around the two routes: in
any store where the id about to be assigned is fresh, immediately after
`create_manual_expense` succeeds exactly one `manual` ledger row points
at the new expense, and `delete_manual_expense` on that id succeeds and
leaves zero such rows and no manual expense with that id. -/
theorem manual_ledger_bijection (db : DB) (d : ManualExpenseCreate)
    (now now2 : Timestamp)
    (hfresh : countManualFor db db.next_manual_id = 0)
    (hid : ∀ m2 ∈ db.manual_expenses, m2.id ≠ db.next_manual_id) :
    countManualFor (create_manual_expense db d now).1
        (create_manual_expense db d now).2.1.id = 1
  ∧ ∃ db3 msgs,
      delete_manual_expense (create_manual_expense db d now).1
          (create_manual_expense db d now).2.1.id now2 = .ok (db3, msgs)
      ∧ countManualFor db3 (create_manual_expense db d now).2.1.id = 0
      ∧ ∀ m2 ∈ db3.manual_expenses,
          m2.id ≠ (create_manual_expense db d now).2.1.id := by
  have hnil : db.expenses.filter
      (fun e => e.expense_type == "manual" &&
        e.reference_id == some db.next_manual_id) = [] := by
    simp only [countManualFor] at hfresh
    exact List.length_eq_zero.mp hfresh
  -- the two rows created by the route
  have hm : (create_manual_expense db d now).2.1 =
      ⟨db.next_manual_id, d.date, d.category, d.description, d.value,
        d.responsible, now⟩ := rfl
  have hexp : (create_manual_expense db d now).1.expenses
      = db.expenses ++ [(create_manual_expense db d now).2.2.1] := rfl
  have hman : (create_manual_expense db d now).1.manual_expenses
      = db.manual_expenses ++ [(create_manual_expense db d now).2.1] := rfl
  have hfil : (create_manual_expense db d now).1.expenses.filter
      (fun e => e.expense_type == "manual" &&
        e.reference_id == some db.next_manual_id)
      = [(create_manual_expense db d now).2.2.1] := by
    rw [hexp, List.filter_append, hnil]
    simp [create_manual_expense, create_manual_expense_tx1,
      create_manual_expense_entry, create_expense]
  have hcount1 : countManualFor (create_manual_expense db d now).1
      (create_manual_expense db d now).2.1.id = 1 := by
    simp only [countManualFor, hm]
    rw [hfil]
    rfl
  refine ⟨hcount1, ?_⟩
  -- locating the source row
  have hfind : (create_manual_expense db d now).1.manual_expenses.find?
      (fun mm => mm.id == db.next_manual_id)
      = some (create_manual_expense db d now).2.1 := by
    rw [hman, List.find?_append]
    have h1 : db.manual_expenses.find?
        (fun mm => mm.id == db.next_manual_id) = none := by
      refine List.find?_eq_none.mpr (fun x hx => ?_)
      simpa using hid x hx
    rw [h1]
    simp [hm]
  -- the new ledger row is not among the pre-existing ones
  have hnotinExp : (create_manual_expense db d now).2.2.1 ∉ db.expenses := by
    intro hmem
    have hp : ((create_manual_expense db d now).2.2.1.expense_type == "manual"
        && (create_manual_expense db d now).2.2.1.reference_id
              == some db.next_manual_id) = true := by
      simp [create_manual_expense, create_manual_expense_tx1,
        create_manual_expense_entry, create_expense]
    have : (create_manual_expense db d now).2.2.1 ∈ db.expenses.filter
        (fun e => e.expense_type == "manual" &&
          e.reference_id == some db.next_manual_id) :=
      List.mem_filter.mpr ⟨hmem, hp⟩
    rw [hnil] at this
    exact absurd this (List.not_mem_nil _)
  have hnotinMan : (create_manual_expense db d now).2.1 ∉ db.manual_expenses := by
    intro hmem
    exact hid _ hmem (by rw [hm])
  -- deleting the ledger row first, then the source row
  have herase1 : ((create_manual_expense db d now).1.expenses.erase
      (create_manual_expense db d now).2.2.1) = db.expenses := by
    rw [hexp, List.erase_append_right _ hnotinExp, List.erase_cons_head,
      List.append_nil]
  have herase2 : ((create_manual_expense db d now).1.manual_expenses.erase
      (create_manual_expense db d now).2.1) = db.manual_expenses := by
    rw [hman, List.erase_append_right _ hnotinMan, List.erase_cons_head,
      List.append_nil]
  have hdbr : delete_expense_by_reference (create_manual_expense db d now).1
      "manual" db.next_manual_id
      = .ok ({ (create_manual_expense db d now).1 with
               expenses := db.expenses }, true) := by
    simp only [delete_expense_by_reference, hfil, herase1]
  have hdel : delete_manual_expense (create_manual_expense db d now).1
      db.next_manual_id now2
      = .ok ({ (create_manual_expense db d now).1 with
               expenses := db.expenses,
               manual_expenses := db.manual_expenses },
             [OutMessage.expenseDeleted db.next_manual_id now2]) := by
    simp only [delete_manual_expense, hfind, hdbr, herase2]
  refine ⟨_, _, by rw [hm]; exact hdel, ?_, ?_⟩
  · simp only [countManualFor, hm]
    simp only [countManualFor] at hfresh
    exact hfresh
  · intro m2 hm2
    rw [hm]
    exact hid m2 hm2

/-- C4 witness — the round-trip at a concrete input: creating the first
manual expense in the empty store and deleting it again. -/
theorem manual_ledger_bijection_witness :
    countManualFor (create_manual_expense emptyDB sampleCreate 0).1
        (create_manual_expense emptyDB sampleCreate 0).2.1.id = 1
  ∧ ∃ db3 msgs,
      delete_manual_expense (create_manual_expense emptyDB sampleCreate 0).1
          (create_manual_expense emptyDB sampleCreate 0).2.1.id 1 = .ok (db3, msgs)
      ∧ countManualFor db3 (create_manual_expense emptyDB sampleCreate 0).2.1.id = 0
      ∧ ∀ m2 ∈ db3.manual_expenses,
          m2.id ≠ (create_manual_expense emptyDB sampleCreate 0).2.1.id :=
  manual_ledger_bijection emptyDB sampleCreate 0 1 (by decide) (by decide)

/-! ### Payment confirmation (C1) -/

/-- The seeded `PERSONAL_TRAINER` position (base salary 3500.0). -/
def posPT : Position := ⟨1, "PERSONAL_TRAINER", none, 3500⟩

/-- Employee `E1`, unpaid, assigned to `PERSONAL_TRAINER`. -/
def stE1 : EmployeePaymentStatus :=
  ⟨1, "E1", some "PERSONAL_TRAINER", false, none, 0, 0⟩

/-- A store holding exactly `posPT` and `stE1`, with an empty ledger. -/
def dbC1 : DB := ⟨[posPT], [], [stE1], none, [], 1, 2, 1⟩

/-- `stE1` after a payment confirmation at instant 100. -/
def stE1paid : EmployeePaymentStatus :=
  { stE1 with paid := true, last_payment := some 100, updated_at := 100 }

/-- `dbC1` after a payment confirmation at instant 100. -/
def dbC1paid : DB := { dbC1 with payment_status := [stE1paid] }

/-- C1 — evaluating `confirm_payment` at the failing input: it sets
`paid = true`, `last_payment = now`, resolves the amount 3500.0 from the
position catalog for the published `employee.paid` event, publishes the
three outbound events — but creates NO ledger entry: the `expenses`
table stays empty, with zero `employee_payment` rows, because the route
never calls `create_employee_payment_entry`. -/
theorem confirm_payment_creates_no_ledger_entry :
    confirm_payment dbC1 "E1" "E1" 100 ⟨2025, 3, 10⟩
      = .ok (dbC1paid, stE1paid,
          [OutMessage.employeePaid "E1" 3500 (some "PERSONAL_TRAINER") 3 2025 100,
           OutMessage.statusChanged "analytics-employee-status-changed-queue"
             "E1" true,
           OutMessage.statusChanged "user-employee-status-changed-queue"
             "E1" true])
  ∧ stE1paid.paid = true
  ∧ stE1paid.last_payment = some 100
  ∧ dbC1paid.expenses = []
  ∧ (dbC1paid.expenses.filter
      (fun e => e.expense_type == "employee_payment")).length = 0 :=
  ⟨rfl, rfl, rfl, rfl, rfl⟩

/-! ### Event ingestion (C6, C7) -/

/-- C6 — `employee.registered` ingestion is idempotent: a second
application of the same event is a no-op, and on a store with no row for
the id, one application leaves exactly one row for it, carrying
`position_name = role, paid = false, last_payment = null`. -/
theorem registered_idempotent (db : DB) (ev : EmployeeRegistered)
    (now now2 : Timestamp) :
    process_employee_registered (process_employee_registered db ev now) ev now2
      = process_employee_registered db ev now
  ∧ (db.payment_status.filter (fun s => s.employee_id == ev.id) = [] →
      (process_employee_registered db ev now).payment_status.filter
          (fun s => s.employee_id == ev.id)
        = [⟨db.next_status_id, ev.id, some ev.role, false, none, now, now⟩]) := by
  constructor
  · cases hf : db.payment_status.find? (fun s => s.employee_id == ev.id) with
    | some ps => simp [process_employee_registered, hf]
    | none =>
      simp only [process_employee_registered, hf]
      rw [List.find?_append, hf]
      simp
  · intro hnil
    have hf : db.payment_status.find? (fun s => s.employee_id == ev.id) = none :=
      List.find?_eq_none.mpr (List.filter_eq_nil_iff.mp hnil)
    simp only [process_employee_registered, hf]
    rw [List.filter_append, hnil]
    simp

/-- C6 witness — registering `E1` twice in the empty store. -/
theorem registered_idempotent_witness :
    process_employee_registered
        (process_employee_registered emptyDB ⟨"E1", "PERSONAL_TRAINER"⟩ 5)
        ⟨"E1", "PERSONAL_TRAINER"⟩ 6
      = process_employee_registered emptyDB ⟨"E1", "PERSONAL_TRAINER"⟩ 5
  ∧ (emptyDB.payment_status.filter (fun s => s.employee_id == "E1") = [] →
      (process_employee_registered emptyDB ⟨"E1", "PERSONAL_TRAINER"⟩ 5).payment_status.filter
          (fun s => s.employee_id == "E1")
        = [⟨emptyDB.next_status_id, "E1", some "PERSONAL_TRAINER", false, none, 5, 5⟩]) :=
  registered_idempotent emptyDB ⟨"E1", "PERSONAL_TRAINER"⟩ 5 6

/-- C7 — an `employee.role_changed` event for an id with no
payment-status row leaves the store unchanged (the handler logs and
drops the event; no row is created, no error reaches the caller). -/
theorem role_changed_before_registered_dropped (db : DB)
    (ev : EmployeeRoleChanged) (now : Timestamp)
    (h : db.payment_status.filter (fun s => s.employee_id == ev.id) = []) :
    process_employee_role_changed db ev now = db := by
  have hf : db.payment_status.find? (fun s => s.employee_id == ev.id) = none :=
    List.find?_eq_none.mpr (List.filter_eq_nil_iff.mp h)
  simp [process_employee_role_changed, hf]

/-- C7 witness — a role change for `E9` hitting the empty store. -/
theorem role_changed_before_registered_dropped_witness :
    process_employee_role_changed emptyDB ⟨"E9", "MANAGER"⟩ 3 = emptyDB :=
  role_changed_before_registered_dropped emptyDB ⟨"E9", "MANAGER"⟩ 3 (by decide)

/-! ### Payment cycle scheduler (C3) -/

/-- The reset condition as the specification words it:
`(today.day ≥ reset_day) AND (last_reset_date is null OR
last_reset_date.(year, month) ≠ today.(year, month))`.  Stated from the
spec only to be compared with `should_reset_payments`. -/
def claimResetCondition (c : PaymentCycleConfig) (today : PyDate) : Bool :=
  decide (c.reset_day ≤ today.day) &&
    (match c.last_reset_date with
     | none => true
     | some d => decide (d.year ≠ today.year) || decide (d.month ≠ today.month))

theorem goc_payment_status (db : DB) (now : Timestamp) :
    (get_or_create_config db now).2.payment_status = db.payment_status := by
  cases hc : db.config <;> simp [get_or_create_config, hc]

theorem goc_expenses (db : DB) (now : Timestamp) :
    (get_or_create_config db now).2.expenses = db.expenses := by
  cases hc : db.config <;> simp [get_or_create_config, hc]

theorem srp_snd (db : DB) (today : PyDate) (now : Timestamp) :
    (should_reset_payments db today now).2 = (get_or_create_config db now).2 := by
  cases hld : (get_or_create_config db now).1.last_reset_date with
  | none => simp [should_reset_payments, hld]
  | some d =>
    simp only [should_reset_payments, hld]
    split <;> rfl

theorem srp_fst (db : DB) (today : PyDate) (now : Timestamp) :
    (should_reset_payments db today now).1
      = claimResetCondition (get_or_create_config db now).1 today := by
  cases hld : (get_or_create_config db now).1.last_reset_date with
  | none => simp [should_reset_payments, claimResetCondition, hld]
  | some d =>
    by_cases hy : d.year = today.year <;> by_cases hm : d.month = today.month <;>
      simp [should_reset_payments, claimResetCondition, hld, hy, hm]

/-- C3 — `check_and_auto_reset` resets exactly when the claim's
condition holds on the (possibly auto-created) config; a reset flips
every paid status to unpaid, stamps `last_reset_date = today` and
returns the number of previously-paid employees, while `none` (a value
distinct from `some 0`) reports a no-op that leaves the store's rows
untouched; after a reset, any further call in the same (year, month) is
a no-op. -/
theorem check_and_auto_reset_correct (db : DB) (today : PyDate)
    (now : Timestamp) :
    (check_and_auto_reset db today now).1.isSome
      = claimResetCondition (get_or_create_config db now).1 today
  ∧ (∀ n db2, check_and_auto_reset db today now = (some n, db2) →
      n = (db.payment_status.filter (fun s => s.paid)).length
      ∧ (∀ s ∈ db2.payment_status, s.paid = false)
      ∧ (∃ c2, db2.config = some c2 ∧ c2.last_reset_date = some today)
      ∧ (∀ today2 now2, today2.year = today.year → today2.month = today.month →
          (check_and_auto_reset db2 today2 now2).1 = none))
  ∧ ((check_and_auto_reset db today now).1 = none →
      (check_and_auto_reset db today now).2.payment_status = db.payment_status
      ∧ (check_and_auto_reset db today now).2.expenses = db.expenses) := by
  refine ⟨?_, ?_, ?_⟩
  · cases hb : (should_reset_payments db today now).1 with
    | false => simp [check_and_auto_reset, hb, ← srp_fst db today now]
    | true => simp [check_and_auto_reset, hb, ← srp_fst db today now]
  · intro n db2 heq
    cases hb : (should_reset_payments db today now).1 with
    | false =>
      simp [check_and_auto_reset, hb] at heq
    | true =>
      simp only [check_and_auto_reset, hb, if_pos] at heq
      rw [Prod.mk.injEq] at heq
      obtain ⟨hn, hdb2⟩ := heq
      rw [Option.some.injEq] at hn
      have hps : (should_reset_payments db today now).2.payment_status
          = db.payment_status := by
        rw [srp_snd, goc_payment_status]
      refine ⟨?_, ?_, ?_, ?_⟩
      · rw [← hn]
        simp [reset_all_payment_status, hps]
      · intro s hs
        rw [← hdb2] at hs
        simp only [reset_all_payment_status] at hs
        rw [List.mem_map] at hs
        obtain ⟨a, _, rfl⟩ := hs
        by_cases hp : a.paid <;> simp [hp]
      · refine ⟨{ (get_or_create_config
                    (should_reset_payments db today now).2 now).1 with
                  last_reset_date := some today, updated_at := now },
            ?_, rfl⟩
        rw [← hdb2]
        rfl
      · intro today2 now2 hy2 hm2
        have hcfg : db2.config
            = some { (get_or_create_config
                        (should_reset_payments db today now).2 now).1 with
                     last_reset_date := some today, updated_at := now } := by
          rw [← hdb2]; rfl
        have hgoc2 : (get_or_create_config db2 now2).1.last_reset_date
            = some today := by
          simp [get_or_create_config, hcfg]
        simp only [check_and_auto_reset, should_reset_payments, hgoc2]
        have hyne : ¬ (today.year ≠ today2.year ∨ today.month ≠ today2.month) := by
          rw [hy2, hm2]; simp
        simp [hyne]
  · intro hnone
    cases hb : (should_reset_payments db today now).1 with
    | true => simp [check_and_auto_reset, hb] at hnone
    | false =>
      constructor
      · simp [check_and_auto_reset, hb, srp_snd, goc_payment_status]
      · simp [check_and_auto_reset, hb, srp_snd, goc_expenses]

/-- One paid employee, used to exercise a reset. -/
def stPaid : EmployeePaymentStatus := ⟨1, "E1", none, true, some 5, 0, 0⟩

/-- A store with one paid employee and config `reset_day = 10`, never
reset. -/
def dbC3 : DB := ⟨[], [], [stPaid], some ⟨1, 10, none, 0, 0⟩, [], 1, 2, 1⟩

/-- `dbC3` after the automatic reset runs on 2025-03-10 at instant 7. -/
def dbC3after : DB :=
  ⟨[], [], [⟨1, "E1", none, false, some 5, 0, 7⟩],
    some ⟨1, 10, some ⟨2025, 3, 10⟩, 0, 7⟩, [], 1, 2, 1⟩

/-- C3 witness — on 2025-03-10 with `reset_day = 10` and no previous
reset, the check resets the one paid employee and returns 1; on
2025-03-15 of the same month the check is a no-op. -/
theorem check_and_auto_reset_correct_witness :
    (1 = (dbC3.payment_status.filter (fun s => s.paid)).length
      ∧ (∀ s ∈ dbC3after.payment_status, s.paid = false)
      ∧ (∃ c2, dbC3after.config = some c2
            ∧ c2.last_reset_date = some ⟨2025, 3, 10⟩)
      ∧ (∀ today2 now2, today2.year = 2025 → today2.month = 3 →
          (check_and_auto_reset dbC3after today2 now2).1 = none))
  ∧ ((check_and_auto_reset dbC3after ⟨2025, 3, 15⟩ 8).2.payment_status
        = dbC3after.payment_status
      ∧ (check_and_auto_reset dbC3after ⟨2025, 3, 15⟩ 8).2.expenses
        = dbC3after.expenses) :=
  ⟨(check_and_auto_reset_correct dbC3 ⟨2025, 3, 10⟩ 7).2.1 1 dbC3after rfl,
   (check_and_auto_reset_correct dbC3after ⟨2025, 3, 15⟩ 8).2.2 rfl⟩

/-! ### The paid/last_payment invariant (C5) -/

/-- The data invariant of §3: a paid employee always has a recorded
last payment instant. -/
def paidInvariant (db : DB) : Prop :=
  ∀ s ∈ db.payment_status, s.paid = true → s.last_payment ≠ none

/-- C5 — every mutation of payment-status records (registration
ingestion, role-change ingestion, payment confirmation, dismissal,
cycle reset — directly or via the auto-check — and demo initialisation)
preserves `paidInvariant`. -/
theorem mutations_preserve_paid_invariant (db : DB) (h : paidInvariant db)
    (ev : EmployeeRegistered) (ev2 : EmployeeRoleChanged) (eid pid : String)
    (sel : List String) (today nowDate : PyDate) (now : Timestamp) :
    paidInvariant (process_employee_registered db ev now)
  ∧ paidInvariant (process_employee_role_changed db ev2 now)
  ∧ (∀ db2 ps msgs, confirm_payment db eid pid now nowDate = .ok (db2, ps, msgs) →
      paidInvariant db2)
  ∧ (∀ db2 msgs, dismiss_employee db eid now = .ok (db2, msgs) →
      paidInvariant db2)
  ∧ paidInvariant (reset_all_payment_status db today now).2
  ∧ paidInvariant (check_and_auto_reset db today now).2
  ∧ paidInvariant (init_demo_payments db sel now nowDate).2.1 := by
  have hreset : paidInvariant (reset_all_payment_status db today now).2 := by
    intro s hs
    simp only [reset_all_payment_status] at hs
    rw [List.mem_map] at hs
    obtain ⟨a, ha, rfl⟩ := hs
    by_cases hp : a.paid <;> simp [hp]
  refine ⟨?_, ?_, ?_, ?_, hreset, ?_, ?_⟩
  · cases hf : db.payment_status.find? (fun s => s.employee_id == ev.id) with
    | some ps => simpa [process_employee_registered, hf] using h
    | none =>
      intro s hs
      simp only [process_employee_registered, hf] at hs
      rw [List.mem_append] at hs
      rcases hs with hs | hs
      · exact h s hs
      · rw [List.mem_singleton] at hs
        subst hs
        simp
  · cases hf : db.payment_status.find? (fun s => s.employee_id == ev2.id) with
    | none => simpa [process_employee_role_changed, hf] using h
    | some ps =>
      intro s hs
      simp only [process_employee_role_changed, hf] at hs
      rw [List.mem_map] at hs
      obtain ⟨a, ha, rfl⟩ := hs
      have hps := h ps (List.mem_of_find?_eq_some hf)
      by_cases hc : (a.employee_id == eid) = true
      · by_cases hc2 : (a.employee_id == ev2.id) = true <;>
          simp [hc2] <;> first
          | exact fun hpaid => hps hpaid
          | exact fun hpaid => h a ha hpaid
      · by_cases hc2 : (a.employee_id == ev2.id) = true <;>
          simp [hc2] <;> first
          | exact fun hpaid => hps hpaid
          | exact fun hpaid => h a ha hpaid
  · intro db2 ps msgs heq
    simp only [confirm_payment] at heq
    split at heq
    · simp at heq
    · split at heq
      · simp at heq
      · rw [Except.ok.injEq, Prod.mk.injEq] at heq
        obtain ⟨hdb2, -⟩ := heq
        intro s hs
        rw [← hdb2] at hs
        rw [List.mem_map] at hs
        obtain ⟨a, ha, rfl⟩ := hs
        by_cases hc : (a.employee_id == eid) = true <;> simp [hc]
        exact fun hpaid => h a ha hpaid
  · intro db2 msgs heq
    simp only [dismiss_employee] at heq
    split at heq
    · simp at heq
    · rw [Except.ok.injEq, Prod.mk.injEq] at heq
      obtain ⟨hdb2, -⟩ := heq
      intro s hs
      rw [← hdb2] at hs
      rw [List.mem_map] at hs
      obtain ⟨a, ha, rfl⟩ := hs
      by_cases hc : (a.employee_id == eid) = true <;> simp [hc]
      exact fun hpaid => h a ha hpaid
  · cases hb : (should_reset_payments db today now).1 with
    | true =>
      intro s hs
      simp only [check_and_auto_reset, hb, if_pos] at hs
      simp only [reset_all_payment_status] at hs
      rw [srp_snd, goc_payment_status, List.mem_map] at hs
      obtain ⟨a, ha, rfl⟩ := hs
      by_cases hp : a.paid <;> simp [hp]
    | false =>
      intro s hs
      simp [check_and_auto_reset, hb, srp_snd, goc_payment_status] at hs
      exact h s hs
  · by_cases hempty :
        (db.payment_status.filter (fun s => !s.paid)).isEmpty = true
    · simpa [init_demo_payments, hempty] using h
    · intro s hs
      simp [init_demo_payments, hempty] at hs
      obtain ⟨a, ha, rfl⟩ := hs
      by_cases hc : a.employee_id ∈ sel ∧ a.paid = false <;> simp [hc]
      exact fun hpaid => h a ha hpaid

/-- C5 witness — the preservation conjunction at the concrete store
`dbC1` (one unpaid employee), with the invariant discharged there. -/
theorem mutations_preserve_paid_invariant_witness :
    paidInvariant (process_employee_registered dbC1 ⟨"E2", "R"⟩ 5)
  ∧ paidInvariant (process_employee_role_changed dbC1 ⟨"E1", "MANAGER"⟩ 5)
  ∧ (∀ db2 ps msgs, confirm_payment dbC1 "E1" "E1" 5 ⟨2025, 3, 10⟩
        = .ok (db2, ps, msgs) → paidInvariant db2)
  ∧ (∀ db2 msgs, dismiss_employee dbC1 "E1" 5 = .ok (db2, msgs) →
      paidInvariant db2)
  ∧ paidInvariant (reset_all_payment_status dbC1 ⟨2025, 3, 10⟩ 5).2
  ∧ paidInvariant (check_and_auto_reset dbC1 ⟨2025, 3, 10⟩ 5).2
  ∧ paidInvariant (init_demo_payments dbC1 ["E1"] 5 ⟨2025, 3, 10⟩).2.1 :=
  mutations_preserve_paid_invariant dbC1
    (by simp [paidInvariant, dbC1, stE1]) ⟨"E2", "R"⟩ ⟨"E1", "MANAGER"⟩
    "E1" "E1" ["E1"] ⟨2025, 3, 10⟩ ⟨2025, 3, 10⟩ 5

/-! ### Demo initialisation (C8) -/

/-- When the selection is duplicate-free, drawn from the unpaid
employees of a store whose employee ids are unique, the rows it touches
are exactly one per selected id. -/
theorem demo_count_eq_sel_length (l : List EmployeePaymentStatus)
    (sel : List String)
    (hn : (l.map (fun s => s.employee_id)).Nodup)
    (hnd : sel.Nodup)
    (hsub : ∀ i ∈ sel, ∃ s, s ∈ l ∧ s.employee_id = i ∧ s.paid = false) :
    (l.filter (fun s => sel.contains s.employee_id && !s.paid)).length
      = sel.length := by
  have hsubl : (l.filter
      (fun s => sel.contains s.employee_id && !s.paid)).Sublist l :=
    List.filter_sublist l
  have hLnodup : ((l.filter
      (fun s => sel.contains s.employee_id && !s.paid)).map
        (fun s => s.employee_id)).Nodup :=
    hn.sublist (hsubl.map _)
  have hsub1 : ((l.filter
      (fun s => sel.contains s.employee_id && !s.paid)).map
        (fun s => s.employee_id)) ⊆ sel := by
    intro x hx
    rw [List.mem_map] at hx
    obtain ⟨s, hsL, rfl⟩ := hx
    have hf := (List.mem_filter.mp hsL).2
    rw [Bool.and_eq_true] at hf
    exact List.mem_of_elem_eq_true hf.1
  have hsub2 : sel ⊆ ((l.filter
      (fun s => sel.contains s.employee_id && !s.paid)).map
        (fun s => s.employee_id)) := by
    intro i hi
    obtain ⟨s, hsl, hid, hpaid⟩ := hsub i hi
    have hmem : s ∈ l.filter
        (fun s => sel.contains s.employee_id && !s.paid) := by
      refine List.mem_filter.mpr ⟨hsl, ?_⟩
      rw [Bool.and_eq_true]
      refine ⟨List.elem_eq_true_of_mem ?_, ?_⟩
      · rw [hid]; exact hi
      · rw [hpaid]; rfl
    rw [List.mem_map]
    exact ⟨s, hmem, hid⟩
  have h1 := (hLnodup.subperm hsub1).length_le
  have h2 := (hnd.subperm hsub2).length_le
  rw [List.length_map] at h1 h2
  omega

/-- Three unpaid employees with no positions assigned. -/
def dbC8 : DB :=
  ⟨[], [],
   [⟨1, "E1", none, false, none, 0, 0⟩,
    ⟨2, "E2", none, false, none, 0, 0⟩,
    ⟨3, "E3", none, false, none, 0, 0⟩],
   none, [], 1, 4, 1⟩

/-- C8 counterexample — with 3 unpaid employees the code draws
`max(1, 3 // 2) = 1` employee (floor division), so running the demo
initialisation marks exactly 1 employee paid, not the
`max(1, ceil(3/2)) = 2` the claim asserts. -/
theorem demo_payment_count_counterexample :
    (init_demo_payments dbC8 ["E1"] 7 ⟨2025, 3, 10⟩).1 = 1
  ∧ demo_sample_size
      (dbC8.payment_status.filter (fun s => !s.paid)).length = 1
  ∧ (1 : Nat)
      ≠ max 1 (((dbC8.payment_status.filter (fun s => !s.paid)).length + 1) / 2) := by
  decide

/-- C8 amended — the demo initialisation marks exactly
`max(1, ⌊n/2⌋)` of the `n` currently-unpaid employees as paid (50%
rounded DOWN, minimum 1), stamping `last_payment`, and publishes one
`employee.paid` event per marked employee whose amount is resolved by
`lookup_salary` (0 when the position is missing or unassigned). -/
theorem demo_payment_selection (db : DB) (sel : List String)
    (now : Timestamp) (nd : PyDate)
    (hn : (db.payment_status.map (fun s => s.employee_id)).Nodup)
    (hnd : sel.Nodup)
    (hsub : ∀ i ∈ sel, ∃ s, s ∈ db.payment_status
        ∧ s.employee_id = i ∧ s.paid = false)
    (hlen : sel.length = demo_sample_size
        (db.payment_status.filter (fun s => !s.paid)).length)
    (hne : (db.payment_status.filter (fun s => !s.paid)).length ≠ 0) :
    (init_demo_payments db sel now nd).1
      = demo_sample_size (db.payment_status.filter (fun s => !s.paid)).length
  ∧ demo_sample_size (db.payment_status.filter (fun s => !s.paid)).length
      = max 1 ((db.payment_status.filter (fun s => !s.paid)).length / 2)
  ∧ (∀ m ∈ (init_demo_payments db sel now nd).2.2, ∃ s,
        s ∈ db.payment_status
        ∧ m = OutMessage.employeePaid s.employee_id
            (lookup_salary db s.position_name) s.position_name
            nd.month nd.year now)
  ∧ (∀ pn, db.positions.find? (fun p => p.name == pn) = none →
      lookup_salary db (some pn) = 0)
  ∧ lookup_salary db none = 0
  ∧ (∀ s ∈ db.payment_status, sel.contains s.employee_id = true →
      s.paid = false →
      { s with paid := true, last_payment := some now, updated_at := now }
        ∈ (init_demo_payments db sel now nd).2.1.payment_status) := by
  have hcond : ¬ ((db.payment_status.filter
      (fun s => !s.paid)).isEmpty = true) := by
    intro hE
    rw [List.isEmpty_iff] at hE
    rw [hE] at hne
    simp at hne
  have hcount := demo_count_eq_sel_length db.payment_status sel hn hnd hsub
  refine ⟨?_, rfl, ?_, ?_, rfl, ?_⟩
  · simp only [init_demo_payments]
    rw [if_neg hcond]
    rw [hcount]
    exact hlen
  · intro m hm
    simp only [init_demo_payments] at hm
    rw [if_neg hcond] at hm
    rw [List.mem_map] at hm
    obtain ⟨s, hsT, rfl⟩ := hm
    exact ⟨s, (List.mem_filter.mp hsT).1, rfl⟩
  · intro pn hf
    simp only [lookup_salary]
    by_cases hpn : pn = ""
    · simp [hpn]
    · simp [hpn, hf]
  · intro s hs hcont hpaid
    simp only [init_demo_payments]
    rw [if_neg hcond]
    rw [List.mem_map]
    have hc' : s.employee_id ∈ sel := List.mem_of_elem_eq_true hcont
    exact ⟨s, hs, by simp [hc', hpaid]⟩

/-- C8 witness — `dbC8` (3 unpaid employees) with the singleton
selection `["E1"]`, matching the sample size `max(1, 3 // 2) = 1`. -/
theorem demo_payment_selection_witness :
    (init_demo_payments dbC8 ["E1"] 7 ⟨2025, 3, 10⟩).1
      = demo_sample_size (dbC8.payment_status.filter (fun s => !s.paid)).length
  ∧ demo_sample_size (dbC8.payment_status.filter (fun s => !s.paid)).length
      = max 1 ((dbC8.payment_status.filter (fun s => !s.paid)).length / 2)
  ∧ (∀ m ∈ (init_demo_payments dbC8 ["E1"] 7 ⟨2025, 3, 10⟩).2.2, ∃ s,
        s ∈ dbC8.payment_status
        ∧ m = OutMessage.employeePaid s.employee_id
            (lookup_salary dbC8 s.position_name) s.position_name 3 2025 7)
  ∧ (∀ pn, dbC8.positions.find? (fun p => p.name == pn) = none →
      lookup_salary dbC8 (some pn) = 0)
  ∧ lookup_salary dbC8 none = 0
  ∧ (∀ s ∈ dbC8.payment_status, List.contains ["E1"] s.employee_id = true →
      s.paid = false →
      { s with paid := true, last_payment := some 7, updated_at := 7 }
        ∈ (init_demo_payments dbC8 ["E1"] 7 ⟨2025, 3, 10⟩).2.1.payment_status) :=
  demo_payment_selection dbC8 ["E1"] 7 ⟨2025, 3, 10⟩ (by decide) (by decide)
    (by decide) (by decide) (by decide)

end FinanceService
